import Mathlib

/-!
Shallow embedding of the cert-manager repository fragments relevant to the
certificate-shim controllers, the PKCS1 secret codec, the ACME and Vault
issuer backends, the ACME API-version conversions and the certificate
metrics, together with theorems settling the specification claims about
them.

Go values are modelled as plain Lean data: machine strings as `String`,
byte buffers as abstract content, nilable pointers as `Option`, and
fallible calls as `Except`.  A Go nil-pointer dereference (a panic) is
modelled by an `Option`-valued evaluation returning `none`.
-/

namespace CertManager

/-- Kubernetes condition status values (`metav1.ConditionStatus`). -/
inductive ConditionStatus where
  | CTrue
  | CFalse
  | CUnknown
deriving DecidableEq, Repr

/-! ## Certificate data model (pkg/apis/certmanager/v1)

Only the fields read by the certificate-shim are modelled.  Labels are a
nilable map in Go (`map[string]string`); `reflect.DeepEqual` distinguishes
a nil map from an empty one, so labels are modelled as an `Option` of an
association list. -/

/-- Model of `cmmeta.ObjectReference`: reference from a Certificate to its issuer. -/
structure IssuerObjectReference where
  name : String
  kind : String
  group : String
deriving DecidableEq, Repr

/-- The fields of `cmapi.CertificateSpec` read by the certificate-shim. -/
structure CertificateSpec where
  commonName : String
  dnsNames : List String
  secretName : String
  issuerRef : IssuerObjectReference
deriving DecidableEq, Repr

/-- A `cmapi.Certificate` with the metadata fields read by the shim. -/
structure Certificate where
  name : String
  nspace : String
  labels : Option (List (String × String))
  spec : CertificateSpec
deriving DecidableEq, Repr

/-! ## certNeedsUpdate (pkg/controller/certificate-shim/sync.go) -/

/-- Model of `certNeedsUpdate` from `sync.go`: returns true if two Certificates
differ, checking, in source order: object name, labels
(`reflect.DeepEqual`), spec common name, DNS-name list length, DNS names
element-wise, secret name, issuer reference name, issuer reference kind.
Each check mirrors one early `return true` of the Go function. -/
def certNeedsUpdate (a b : Certificate) : Bool :=
  if a.name ≠ b.name then true
  else if a.labels ≠ b.labels then true
  else if a.spec.commonName ≠ b.spec.commonName then true
  else if a.spec.dnsNames.length ≠ b.spec.dnsNames.length then true
  else if (a.spec.dnsNames.zip b.spec.dnsNames).any (fun p => p.1 != p.2) then true
  else if a.spec.secretName ≠ b.spec.secretName then true
  else if a.spec.issuerRef.name ≠ b.spec.issuerRef.name then true
  else if a.spec.issuerRef.kind ≠ b.spec.issuerRef.kind then true
  else false

theorem zip_any_bne_eq_false_iff (xs ys : List String) (hlen : xs.length = ys.length) :
    ((xs.zip ys).any (fun p => p.1 != p.2) = false) ↔ xs = ys := by
  induction xs generalizing ys with
  | nil =>
    cases ys with
    | nil => simp
    | cons y ys => simp at hlen
  | cons x xs ih =>
    cases ys with
    | nil => simp at hlen
    | cons y ys =>
      simp only [List.length_cons, Nat.succ.injEq] at hlen
      simp only [List.zip_cons_cons, List.any_cons, Bool.or_eq_false_iff,
        bne_eq_false_iff_eq, List.cons.injEq]
      exact and_congr Iff.rfl (ih ys hlen)

/-- C2: `certNeedsUpdate(a, b)` returns true if and only if the two
Certificates differ in at least one of: object name, labels, spec common
name, the ordered DNS-name list (element-wise, including differing
lengths), spec secret name, issuer reference name, or issuer reference
kind.  For two structurally identical Certificates it returns false, and a
difference confined to any other field (such as the issuer reference
group, or the namespace) leaves the result false. -/
theorem certNeedsUpdate_iff (a b : Certificate) :
    certNeedsUpdate a b = true ↔
      (a.name ≠ b.name ∨ a.labels ≠ b.labels ∨
       a.spec.commonName ≠ b.spec.commonName ∨
       a.spec.dnsNames ≠ b.spec.dnsNames ∨
       a.spec.secretName ≠ b.spec.secretName ∨
       a.spec.issuerRef.name ≠ b.spec.issuerRef.name ∨
       a.spec.issuerRef.kind ≠ b.spec.issuerRef.kind) := by
  unfold certNeedsUpdate
  split_ifs with h1 h2 h3 h4 h5 h6 h7 h8
  · simp [h1]
  · simp [h2]
  · simp [h3]
  · refine iff_of_true rfl ?_
    refine Or.inr (Or.inr (Or.inr (Or.inl ?_)))
    intro hEq
    exact h4 (by rw [hEq])
  · refine iff_of_true rfl ?_
    refine Or.inr (Or.inr (Or.inr (Or.inl ?_)))
    intro hEq
    rw [not_not] at h4
    rw [(zip_any_bne_eq_false_iff _ _ h4).mpr hEq] at h5
    simp at h5
  · simp [h6]
  · simp [h7]
  · simp [h8]
  · rw [not_not] at h1 h2 h3 h4 h6 h7 h8
    refine iff_of_false (by simp) ?_
    push_neg
    refine ⟨h1, h2, h3, ?_, h6, h7, h8⟩
    exact (zip_any_bne_eq_false_iff _ _ h4).mp (by simpa using h5)

/-! ## ACME issuer Setup: v1-to-v2 URL translation
(pkg/controller/issuers/acme, the ACME backend source) -/

/-- Model of `acmev1ToV2Mappings`: the translation table from the LetsEncrypt ACME v1
directory URLs to their v2 equivalents, exactly as listed in the source. -/
def acmev1ToV2Mappings : List (String × String) :=
  [ ("https://acme-v01.api.letsencrypt.org/directory",
     "https://acme-v02.api.letsencrypt.org/directory"),
    ("https://acme-staging.api.letsencrypt.org/directory",
     "https://acme-staging-v02.api.letsencrypt.org/directory"),
    ("https://acme-v01.api.letsencrypt.org/directory/",
     "https://acme-v02.api.letsencrypt.org/directory"),
    ("https://acme-staging.api.letsencrypt.org/directory/",
     "https://acme-staging-v02.api.letsencrypt.org/directory") ]

/-- Go map lookup `acmev1ToV2Mappings[server]` with its `ok` flag. -/
def lookupV1Mapping (server : String) : Option String :=
  (acmev1ToV2Mappings.find? (fun p => p.1 = server)).map (·.2)

/-- The remediation message built by `ACME.Setup` for a v1 URL, grouped so
that the v2 URL appears verbatim between a prefix and a suffix. -/
def v1RejectMessage (server newURL : String) : String :=
  ("Your ACME server URL is set to a v1 endpoint (" ++ server ++
    "). You should update the spec.acme.server field to \"") ++ newURL ++ "\""

/-- Outcome of the v1-endpoint check at the top of `ACME.Setup`.  When the
check fires, Setup sets the Ready condition (status and message recorded
here) and returns nil without contacting the ACME server
(`returnsNilEarly`); otherwise Setup proceeds with normal account setup. -/
structure ACMESetupV1CheckResult where
  setsReadyCondition : Option (ConditionStatus × String)
  returnsNilEarly : Bool
deriving DecidableEq, Repr

/-- The first step of `ACME.Setup`: if the configured server URL is a key
of `acmev1ToV2Mappings`, set Ready=False with reason InvalidConfig and the
remediation message and return nil; otherwise pass through to normal
setup. -/
def acmeSetupV1Check (server : String) : ACMESetupV1CheckResult :=
  match lookupV1Mapping server with
  | some newURL =>
      ⟨some (ConditionStatus.CFalse, v1RejectMessage server newURL), true⟩
  | none => ⟨none, false⟩

/-- C4: the v1→v2 table maps exactly the four listed the LetsEncrypt v1
directory URLs (production and staging, with and without a trailing slash)
to their correct v2 equivalents; any server URL outside the table passes
through the Setup translation check untouched; a URL in the table makes
Setup set Ready=False with a message naming the v2 URL and return nil
without contacting the server. -/
theorem acmev1ToV2Mappings_exact :
    (lookupV1Mapping "https://acme-v01.api.letsencrypt.org/directory" =
       some "https://acme-v02.api.letsencrypt.org/directory" ∧
     lookupV1Mapping "https://acme-staging.api.letsencrypt.org/directory" =
       some "https://acme-staging-v02.api.letsencrypt.org/directory" ∧
     lookupV1Mapping "https://acme-v01.api.letsencrypt.org/directory/" =
       some "https://acme-v02.api.letsencrypt.org/directory" ∧
     lookupV1Mapping "https://acme-staging.api.letsencrypt.org/directory/" =
       some "https://acme-staging-v02.api.letsencrypt.org/directory") ∧
    (∀ s : String, (lookupV1Mapping s).isSome →
       s = "https://acme-v01.api.letsencrypt.org/directory" ∨
       s = "https://acme-staging.api.letsencrypt.org/directory" ∨
       s = "https://acme-v01.api.letsencrypt.org/directory/" ∨
       s = "https://acme-staging.api.letsencrypt.org/directory/") ∧
    (∀ s : String, lookupV1Mapping s = none →
       acmeSetupV1Check s = ⟨none, false⟩) ∧
    (∀ s newURL : String, lookupV1Mapping s = some newURL →
       acmeSetupV1Check s =
         ⟨some (ConditionStatus.CFalse, v1RejectMessage s newURL), true⟩ ∧
       ∃ pre post : String, v1RejectMessage s newURL = pre ++ newURL ++ post) := by
  refine ⟨⟨rfl, rfl, rfl, rfl⟩, ?_, ?_, ?_⟩
  · intro s hs
    by_cases h1 : s = "https://acme-v01.api.letsencrypt.org/directory"
    · exact Or.inl h1
    by_cases h2 : s = "https://acme-staging.api.letsencrypt.org/directory"
    · exact Or.inr (Or.inl h2)
    by_cases h3 : s = "https://acme-v01.api.letsencrypt.org/directory/"
    · exact Or.inr (Or.inr (Or.inl h3))
    by_cases h4 : s = "https://acme-staging.api.letsencrypt.org/directory/"
    · exact Or.inr (Or.inr (Or.inr h4))
    exfalso
    simp [lookupV1Mapping, acmev1ToV2Mappings, List.find?,
      Ne.symm h1, Ne.symm h2, Ne.symm h3, Ne.symm h4] at hs
  · intro s hnone
    simp [acmeSetupV1Check, hnone]
  · intro s newURL hsome
    refine ⟨by simp [acmeSetupV1Check, hsome], ?_⟩
    exact ⟨"Your ACME server URL is set to a v1 endpoint (" ++ s ++
      "). You should update the spec.acme.server field to \"", "\"", rfl⟩

/-- Witness for C4 at concrete inputs: the staging v1 URL with trailing
slash is rejected with a message naming the v2 staging URL, and a v2 URL
is not in the table and passes through. -/
theorem acmev1ToV2Mappings_exact_witness :
    acmeSetupV1Check "https://acme-staging.api.letsencrypt.org/directory/" =
      ⟨some (ConditionStatus.CFalse,
        v1RejectMessage "https://acme-staging.api.letsencrypt.org/directory/"
          "https://acme-staging-v02.api.letsencrypt.org/directory"), true⟩ ∧
    acmeSetupV1Check "https://acme-v02.api.letsencrypt.org/directory" =
      ⟨none, false⟩ := by
  constructor
  · exact (acmev1ToV2Mappings_exact.2.2.2
      "https://acme-staging.api.letsencrypt.org/directory/"
      "https://acme-staging-v02.api.letsencrypt.org/directory" (by decide)).1
  · exact acmev1ToV2Mappings_exact.2.2.1
      "https://acme-v02.api.letsencrypt.org/directory" (by decide)

/-! ## ACME issuer Setup: skipping account re-verification -/

/-- The state `ACME.Setup` inspects when deciding whether to skip
re-verifying the ACME account: whether the issuer already has a Ready=True
condition, the cached account URI from status, the host components of the
parsed account and server URLs, and the cached last-registered email
against the spec email. -/
structure ACMEAccountState where
  hasReadyCondition : Bool
  statusURI : String
  accountURLHost : String
  serverURLHost : String
  lastRegisteredEmail : String
  specEmail : String
deriving DecidableEq, Repr

/-- Whether `ACME.Setup` skips account re-verification or performs
registration/verification against the ACME server. -/
inductive AccountVerificationAction where
  | skipVerification
  | performVerification
deriving DecidableEq, Repr

/-- The re-verification decision of `ACME.Setup` (the `hasReadyCondition
&& URI != "" && hosts match && emails match` guard in the source). -/
def acmeVerificationAction (s : ACMEAccountState) : AccountVerificationAction :=
  if s.hasReadyCondition = true ∧ s.statusURI ≠ "" ∧
      s.accountURLHost = s.serverURLHost ∧
      s.lastRegisteredEmail = s.specEmail then
    AccountVerificationAction.skipVerification
  else
    AccountVerificationAction.performVerification

/-- C5: `ACME.Setup` skips re-verifying the account exactly when all four
conditions hold — Ready=True condition present, cached account URI
non-empty, account-URL host equal to server-URL host, and cached
last-registered email equal to the spec email — and performs
re-registration/verification whenever any of the four fails. -/
theorem acmeVerificationAction_skip_iff (s : ACMEAccountState) :
    (acmeVerificationAction s = AccountVerificationAction.skipVerification ↔
      (s.hasReadyCondition = true ∧ s.statusURI ≠ "" ∧
       s.accountURLHost = s.serverURLHost ∧
       s.lastRegisteredEmail = s.specEmail)) ∧
    (acmeVerificationAction s = AccountVerificationAction.performVerification ↔
      ¬(s.hasReadyCondition = true ∧ s.statusURI ≠ "" ∧
        s.accountURLHost = s.serverURLHost ∧
        s.lastRegisteredEmail = s.specEmail)) := by
  unfold acmeVerificationAction
  split_ifs with h
  · exact ⟨iff_of_true rfl h, iff_of_false (by simp) (by simpa using h)⟩
  · exact ⟨iff_of_false (by simp) h, iff_of_true rfl h⟩

/-! ## v1alpha3 ↔ internal ACME API conversions (src/unnamed/part_006)

The hand-written conversion functions wrap generated `autoConvert`
functions and then copy the renamed fields (`AuthzURL` ↔
`AuthorizationURL` on ChallengeSpec, `CSR` ↔ `Request` on OrderSpec). -/

/-- The fields of the v1alpha3 `ChallengeSpec` relevant to conversion:
the renamed `AuthzURL` plus a sample of the identically named fields. -/
structure V1Alpha3ChallengeSpec where
  url : String
  authzURL : String
  dnsName : String
  token : String
  key : String
  wildcard : Bool
deriving DecidableEq, Repr

/-- The internal (hub) `acme.ChallengeSpec`, where the renamed field is
called `AuthorizationURL`. -/
structure AcmeChallengeSpec where
  url : String
  authorizationURL : String
  dnsName : String
  token : String
  key : String
  wildcard : Bool
deriving DecidableEq, Repr

/-- The v1alpha3 `OrderSpec`, with the renamed `CSR` field. -/
structure V1Alpha3OrderSpec where
  csr : List Nat
  commonName : String
  dnsNames : List String
  issuerRefName : String
deriving DecidableEq, Repr

/-- The internal `acme.OrderSpec`, where the CSR bytes live in `Request`. -/
structure AcmeOrderSpec where
  request : List Nat
  commonName : String
  dnsNames : List String
  issuerRefName : String
deriving DecidableEq, Repr

/-- Modelled from the spec: the generated
`autoConvert_v1alpha3_ChallengeSpec_To_acme_ChallengeSpec` (generated
conversion code, not present under src/) copies every identically named
field from `inSpec` onto `out` and leaves the renamed field
(`AuthorizationURL`) untouched. -/
def autoConvert_v1alpha3_ChallengeSpec_To_acme_ChallengeSpec
    (inSpec : V1Alpha3ChallengeSpec) (out : AcmeChallengeSpec) : AcmeChallengeSpec :=
  { out with
    url := inSpec.url
    dnsName := inSpec.dnsName
    token := inSpec.token
    key := inSpec.key
    wildcard := inSpec.wildcard }

/-- Modelled from the spec: the generated
`autoConvert_acme_ChallengeSpec_To_v1alpha3_ChallengeSpec` copies every
identically named field and leaves the renamed `AuthzURL` untouched. -/
def autoConvert_acme_ChallengeSpec_To_v1alpha3_ChallengeSpec
    (inSpec : AcmeChallengeSpec) (out : V1Alpha3ChallengeSpec) : V1Alpha3ChallengeSpec :=
  { out with
    url := inSpec.url
    dnsName := inSpec.dnsName
    token := inSpec.token
    key := inSpec.key
    wildcard := inSpec.wildcard }

/-- Modelled from the spec: the generated
`autoConvert_v1alpha3_OrderSpec_To_acme_OrderSpec` copies every
identically named field and leaves the renamed `Request` untouched. -/
def autoConvert_v1alpha3_OrderSpec_To_acme_OrderSpec
    (inSpec : V1Alpha3OrderSpec) (out : AcmeOrderSpec) : AcmeOrderSpec :=
  { out with
    commonName := inSpec.commonName
    dnsNames := inSpec.dnsNames
    issuerRefName := inSpec.issuerRefName }

/-- Modelled from the spec: the generated
`autoConvert_acme_OrderSpec_To_v1alpha3_OrderSpec` copies every
identically named field and leaves the renamed `CSR` untouched. -/
def autoConvert_acme_OrderSpec_To_v1alpha3_OrderSpec
    (inSpec : AcmeOrderSpec) (out : V1Alpha3OrderSpec) : V1Alpha3OrderSpec :=
  { out with
    commonName := inSpec.commonName
    dnsNames := inSpec.dnsNames
    issuerRefName := inSpec.issuerRefName }

/-- Model of `Convert_v1alpha3_ChallengeSpec_To_acme_ChallengeSpec` from
part_006: run the generated conversion, then copy `AuthzURL` into
`AuthorizationURL`. -/
def Convert_v1alpha3_ChallengeSpec_To_acme_ChallengeSpec
    (inSpec : V1Alpha3ChallengeSpec) (out : AcmeChallengeSpec) : AcmeChallengeSpec :=
  let out := autoConvert_v1alpha3_ChallengeSpec_To_acme_ChallengeSpec inSpec out
  { out with authorizationURL := inSpec.authzURL }

/-- Model of `Convert_acme_ChallengeSpec_To_v1alpha3_ChallengeSpec` from
part_006: run the generated conversion, then copy `AuthorizationURL` into
`AuthzURL`. -/
def Convert_acme_ChallengeSpec_To_v1alpha3_ChallengeSpec
    (inSpec : AcmeChallengeSpec) (out : V1Alpha3ChallengeSpec) : V1Alpha3ChallengeSpec :=
  let out := autoConvert_acme_ChallengeSpec_To_v1alpha3_ChallengeSpec inSpec out
  { out with authzURL := inSpec.authorizationURL }

/-- Model of `Convert_v1alpha3_OrderSpec_To_acme_OrderSpec` from part_006: run the
generated conversion, then copy `CSR` into `Request`. -/
def Convert_v1alpha3_OrderSpec_To_acme_OrderSpec
    (inSpec : V1Alpha3OrderSpec) (out : AcmeOrderSpec) : AcmeOrderSpec :=
  let out := autoConvert_v1alpha3_OrderSpec_To_acme_OrderSpec inSpec out
  { out with request := inSpec.csr }

/-- Model of `Convert_acme_OrderSpec_To_v1alpha3_OrderSpec` from part_006: run the
generated conversion, then copy `Request` into `CSR`. -/
def Convert_acme_OrderSpec_To_v1alpha3_OrderSpec
    (inSpec : AcmeOrderSpec) (out : V1Alpha3OrderSpec) : V1Alpha3OrderSpec :=
  let out := autoConvert_acme_OrderSpec_To_v1alpha3_OrderSpec inSpec out
  { out with csr := inSpec.request }

/-- C8: converting a v1alpha3 ChallengeSpec to the internal representation
and back yields an `AuthzURL` equal to the original, and likewise a
v1alpha3 OrderSpec round trip preserves `CSR`; the renamed-field
conversions are mutually inverse (lossless) in both directions. -/
theorem v1alpha3_roundtrip_lossless :
    (∀ (cs : V1Alpha3ChallengeSpec) (mid : AcmeChallengeSpec)
       (scratch : V1Alpha3ChallengeSpec),
       (Convert_acme_ChallengeSpec_To_v1alpha3_ChallengeSpec
          (Convert_v1alpha3_ChallengeSpec_To_acme_ChallengeSpec cs mid)
          scratch).authzURL = cs.authzURL) ∧
    (∀ (cs : AcmeChallengeSpec) (mid : V1Alpha3ChallengeSpec)
       (scratch : AcmeChallengeSpec),
       (Convert_v1alpha3_ChallengeSpec_To_acme_ChallengeSpec
          (Convert_acme_ChallengeSpec_To_v1alpha3_ChallengeSpec cs mid)
          scratch).authorizationURL = cs.authorizationURL) ∧
    (∀ (os : V1Alpha3OrderSpec) (mid : AcmeOrderSpec)
       (scratch : V1Alpha3OrderSpec),
       (Convert_acme_OrderSpec_To_v1alpha3_OrderSpec
          (Convert_v1alpha3_OrderSpec_To_acme_OrderSpec os mid)
          scratch).csr = os.csr) ∧
    (∀ (os : AcmeOrderSpec) (mid : V1Alpha3OrderSpec)
       (scratch : AcmeOrderSpec),
       (Convert_v1alpha3_OrderSpec_To_acme_OrderSpec
          (Convert_acme_OrderSpec_To_v1alpha3_OrderSpec os mid)
          scratch).request = os.request) :=
  ⟨fun _ _ _ => rfl, fun _ _ _ => rfl, fun _ _ _ => rfl, fun _ _ _ => rfl⟩

/-! ## Certificate-deletion event handlers of the shim controllers
(pkg/controller/certificate-shim/gateways/controller.go, the ingresses
controller, and the older gateway-shim in src/unnamed/part_003) -/

/-- Model of `metav1.OwnerReference` with the fields the handlers read. -/
structure OwnerReference where
  apiVersion : String
  kind : String
  name : String
  controller : Bool
deriving DecidableEq, Repr

/-- A Certificate as seen by the deletion handlers: its metadata name,
namespace and owner references. -/
structure ShimCertificate where
  name : String
  nspace : String
  ownerReferences : List OwnerReference
deriving DecidableEq, Repr

/-- Model of `metav1.GetControllerOf`: the first owner reference marked as the
controller, if any. -/
def getControllerOf (crt : ShimCertificate) : Option OwnerReference :=
  crt.ownerReferences.find? (fun r => r.controller)

/-- Model of `certificateDeleted` of the gateway-shim
(certificate-shim/gateways/controller.go): on deletion of a Certificate
whose controller owner is a Gateway, enqueue "namespace/ownerName";
otherwise enqueue nothing. -/
def gateways.certificateDeleted (crt : ShimCertificate) : Option String :=
  match getControllerOf crt with
  | none => none
  | some ref =>
      if ref.kind ≠ "Gateway" then none
      else some (crt.nspace ++ "/" ++ ref.name)

/-- Model of `certificateDeleted` of the ingress-shim
(certificate-shim/ingresses controller): on deletion of a Certificate
whose controller owner is an Ingress, enqueue "namespace/ownerName". -/
def ingresses.certificateDeleted (crt : ShimCertificate) : Option String :=
  match getControllerOf crt with
  | none => none
  | some ref =>
      if ref.kind ≠ "Ingress" then none
      else some (crt.nspace ++ "/" ++ ref.name)

/-- Model of `certificateDeleted` of the gateway-shim variant in
src/unnamed/part_003 (package controller, ControllerName "gateway-shim"):
it tests the owner kind against "Ingress" even though the controller's
parent type is Gateway. -/
def controller.certificateDeleted (crt : ShimCertificate) : Option String :=
  match getControllerOf crt with
  | none => none
  | some ref =>
      if ref.kind ≠ "Ingress" then none
      else some (crt.nspace ++ "/" ++ ref.name)

/-- C9 (code bug evaluation): for a deleted Certificate in namespace
"ns-1" controlled by the Gateway "example-gw", the gateway-shim of
gateways/controller.go enqueues "ns-1/example-gw" as the claim states, but
the gateway-shim variant of src/unnamed/part_003 enqueues nothing because
it compares the owner kind against "Ingress"; a Certificate with no
controller reference, or owned by a different kind, is enqueued by
neither. -/
theorem gatewayShim_certificateDeleted_kind_check :
    gateways.certificateDeleted
        ⟨"example-cert", "ns-1",
         [⟨"networking.x-k8s.io/v1alpha1", "Gateway", "example-gw", true⟩]⟩ =
      some "ns-1/example-gw" ∧
    controller.certificateDeleted
        ⟨"example-cert", "ns-1",
         [⟨"networking.x-k8s.io/v1alpha1", "Gateway", "example-gw", true⟩]⟩ =
      none ∧
    ingresses.certificateDeleted
        ⟨"example-cert", "ns-1",
         [⟨"networking.k8s.io/v1beta1", "Ingress", "example-ing", true⟩]⟩ =
      some "ns-1/example-ing" ∧
    gateways.certificateDeleted ⟨"orphan-cert", "ns-1", []⟩ = none ∧
    gateways.certificateDeleted
        ⟨"example-cert", "ns-1",
         [⟨"networking.k8s.io/v1beta1", "Ingress", "example-ing", true⟩]⟩ =
      none := by
  refine ⟨?_, ?_, ?_, ?_, ?_⟩ <;> rfl

/-! ## ACME issuer SecretChecker (the ACME backend source) -/

/-- Model of `cmmeta.SecretKeySelector`. -/
structure SecretKeySelector where
  name : String
  key : String
deriving DecidableEq, Repr

/-- Model of `cmacme.ACMEExternalAccountBinding` (a nilable pointer field on the
ACME issuer spec). -/
structure ACMEExternalAccountBinding where
  keyID : String
  key : SecretKeySelector
deriving DecidableEq, Repr

/-- The fields of the ACME issuer configuration read by `SecretChecker`
and the v1 check of `Setup`. -/
structure ACMEIssuerConfig where
  server : String
  email : String
  privateKey : SecretKeySelector
  externalAccountBinding : Option ACMEExternalAccountBinding
deriving DecidableEq, Repr

/-- An issuer spec as `GetSpec()` exposes it to the ACME backend: the ACME
configuration is a nilable pointer. -/
structure IssuerSpec where
  acme : Option ACMEIssuerConfig
deriving DecidableEq, Repr

/-- A core Secret, of which the handlers read only the name. -/
structure Secret where
  name : String
deriving DecidableEq, Repr

/-- Model of `ACME.SecretChecker` from the ACME backend source: returns true when
the ACME spec is non-nil and the secret name equals the account
private-key secret name or — evaluated without a nil check —
`acmeSpec.ExternalAccountBinding.Key.Name`.  The dereference of the
nilable `ExternalAccountBinding` pointer is modelled by the `Option`
result: `none` is the nil-pointer-dereference panic. -/
def ACME.SecretChecker (spec : IssuerSpec) (secret : Secret) : Option Bool :=
  match spec.acme with
  | none => some false
  | some acmeSpec =>
      if acmeSpec.privateKey.name = secret.name then some true
      else
        match acmeSpec.externalAccountBinding with
        | none => none
        | some eab =>
            if eab.key.name = secret.name then some true else some false

/-- C10 (code bug evaluation): with an ACME issuer whose
ExternalAccountBinding is nil, `SecretChecker` panics (nil-pointer
dereference, modelled as `none`) on any secret whose name differs from the
account private-key secret name, instead of returning false; it does
return true for the private-key secret (short-circuit before the
dereference) and, when an ExternalAccountBinding is configured, for the
EAB key secret. -/
theorem ACME.SecretChecker_nil_eab_panics :
    ACME.SecretChecker
        ⟨some ⟨"https://acme-v02.api.letsencrypt.org/directory", "a@b.io",
               ⟨"acme-account-key", "tls.key"⟩, none⟩⟩
        ⟨"unrelated-secret"⟩ = none ∧
    ACME.SecretChecker
        ⟨some ⟨"https://acme-v02.api.letsencrypt.org/directory", "a@b.io",
               ⟨"acme-account-key", "tls.key"⟩, none⟩⟩
        ⟨"acme-account-key"⟩ = some true ∧
    ACME.SecretChecker
        ⟨some ⟨"https://acme-v02.api.letsencrypt.org/directory", "a@b.io",
               ⟨"acme-account-key", "tls.key"⟩,
               some ⟨"kid-1", ⟨"eab-secret", "key"⟩⟩⟩⟩
        ⟨"eab-secret"⟩ = some true ∧
    ACME.SecretChecker ⟨none⟩ ⟨"acme-account-key"⟩ = some false := by
  refine ⟨?_, ?_, ?_, ?_⟩ <;> rfl

/-! ## PKCS1 codec (pkg/controller/certificates/codec/pkcs1.go)

PEM/DER byte buffers are modelled by their abstract content: a PEM-encoded
buffer is the list of PEM blocks it contains, and a DER buffer is tagged
with the object it marshals.  `pem.EncodeToMemory` produces a one-block
buffer, `pem.Decode` splits off the first block,
`x509.MarshalPKCS1PrivateKey` / `ParsePKCS1PrivateKey` are the tagging and
untagging of RSA key material. -/

/-- RSA private key material (raw bytes). -/
structure RSAPrivateKeyData where
  keyBytes : List Nat
deriving DecidableEq, Repr

/-- A `crypto.Signer` value: an RSA key or some other key type (the
PKCS1 codec only accepts RSA). -/
inductive CodecPrivateKey where
  | rsa (k : RSAPrivateKeyData)
  | otherKeyType (keyBytes : List Nat)
deriving DecidableEq, Repr

/-- An `x509.Certificate`, identified by its DER bytes. -/
structure X509CertificateData where
  raw : List Nat
deriving DecidableEq, Repr

/-- DER-encoded content, tagged by what it marshals. -/
inductive DERContent where
  | pkcs1RSAKey (k : RSAPrivateKeyData)
  | certificateDER (c : X509CertificateData)
  | unparsedBytes (bs : List Nat)
deriving DecidableEq, Repr

/-- A single PEM block: a type marker and DER bytes. -/
structure PEMBlock where
  type : String
  bytes : DERContent
deriving DecidableEq, Repr

/-- A PEM-encoded byte buffer, as the list of blocks it contains (the
empty list is the empty / absent buffer). -/
abbrev PEMBytes := List PEMBlock

/-- Errors of the codec package: `errors.NewInvalidData` errors versus
other errors. -/
inductive CodecError where
  | invalidData (msg : String)
  | internalError (msg : String)
deriving DecidableEq, Repr

/-- Model of `codec.Bundle`: private key, certificate chain and CA chain. -/
structure Bundle where
  privateKey : Option CodecPrivateKey
  certificates : List X509CertificateData
  ca : List X509CertificateData
deriving DecidableEq, Repr

/-- Model of `codec.RawData`: the secret data map, projected to the three keys the
PKCS1 codec reads and writes (`tls.key`, `tls.crt`, `ca.crt`; a missing
key is the empty buffer, as in Go map access). -/
structure RawData where
  tlsKey : PEMBytes
  tlsCrt : PEMBytes
  caCrt : PEMBytes
deriving DecidableEq, Repr

/-- Model of `pem.Decode`: split off the first PEM block, or nil on an empty
buffer. -/
def pemDecode : PEMBytes → Option (PEMBlock × PEMBytes)
  | [] => none
  | b :: rest => some (b, rest)

/-- Model of `encodeCertificatesASN1PEM`: one "CERTIFICATE" PEM block per
certificate, in order. -/
def encodeCertificatesASN1PEM (certs : List X509CertificateData) : PEMBytes :=
  certs.map (fun c => ⟨"CERTIFICATE", DERContent.certificateDER c⟩)

/-- Model of `x509.ParseCertificate` on one PEM block's bytes. -/
def parseCertificateBlock (b : PEMBlock) : Except CodecError X509CertificateData :=
  match b.bytes with
  | DERContent.certificateDER c => Except.ok c
  | _ => Except.error (CodecError.invalidData "error parsing TLS certificate")

/-- Model of `pki.DecodeX509CertificateChainBytes`: parse every PEM block as a
certificate; error on an empty buffer or an unparsable block. -/
def DecodeX509CertificateChainBytes (p : PEMBytes) :
    Except CodecError (List X509CertificateData) :=
  if p = [] then
    Except.error (CodecError.invalidData "error decoding certificate PEM block")
  else p.mapM parseCertificateBlock

/-- Model of `PKCS1.Encode` from pkcs1.go: require an RSA private key, marshal it
to PKCS1 DER wrapped in an "RSA PRIVATE KEY" PEM block under `tls.key`,
and PEM-encode the certificate chain under `tls.crt` and the CA chain
under `ca.crt` when non-empty. -/
def PKCS1.Encode (d : Bundle) : Except CodecError RawData :=
  match d.privateKey with
  | some (CodecPrivateKey.rsa k) =>
      Except.ok
        { tlsKey := [⟨"RSA PRIVATE KEY", DERContent.pkcs1RSAKey k⟩]
          tlsCrt :=
            if d.certificates.length > 0 then
              encodeCertificatesASN1PEM d.certificates
            else []
          caCrt :=
            if d.ca.length > 0 then encodeCertificatesASN1PEM d.ca else [] }
  | _ => Except.error (CodecError.internalError "private key is not an RSA key")

/-- Model of `PKCS1.Decode` from pkcs1.go: when `tls.key` is non-empty, PEM-decode
its first block, require the "RSA PRIVATE KEY" marker, and parse the PKCS1
key; then decode the `tls.crt` and `ca.crt` chains when non-empty. -/
def PKCS1.Decode (e : RawData) : Except CodecError Bundle := do
  let pk ←
    if e.tlsKey.length > 0 then
      match pemDecode e.tlsKey with
      | none => Except.error (CodecError.invalidData "failed to decode PEM block")
      | some (block, _) =>
          if block.type ≠ "RSA PRIVATE KEY" then
            Except.error (CodecError.invalidData
              "unexpected PEM block type - PKCS1 data should specify the type as RSA PRIVATE KEY")
          else
            match block.bytes with
            | DERContent.pkcs1RSAKey k =>
                Except.ok (some (CodecPrivateKey.rsa k))
            | _ => Except.error (CodecError.invalidData "failed to decode private key")
    else Except.ok none
  let certs ←
    if e.tlsCrt.length > 0 then DecodeX509CertificateChainBytes e.tlsCrt
    else Except.ok []
  let ca ←
    if e.caCrt.length > 0 then DecodeX509CertificateChainBytes e.caCrt
    else Except.ok []
  Except.ok ⟨pk, certs, ca⟩

theorem mapM_loop_parse (certs acc : List X509CertificateData) :
    List.mapM.loop parseCertificateBlock
      (List.map
        (fun c => (⟨"CERTIFICATE", DERContent.certificateDER c⟩ : PEMBlock))
        certs) acc = Except.ok (acc.reverse ++ certs) := by
  induction certs generalizing acc with
  | nil => simp [List.mapM.loop, pure, Except.pure]
  | cons c cs ih =>
    simp [List.mapM.loop, parseCertificateBlock, Bind.bind, Except.bind, ih]

theorem decode_encode_chain (certs : List X509CertificateData) :
    (encodeCertificatesASN1PEM certs).mapM parseCertificateBlock =
      Except.ok certs := by
  have h := mapM_loop_parse certs []
  simpa [List.mapM, encodeCertificatesASN1PEM] using h

theorem length_encodeCertificatesASN1PEM (l : List X509CertificateData) :
    (encodeCertificatesASN1PEM l).length = l.length := by
  simp [encodeCertificatesASN1PEM]

theorem DecodeX509_encode_cons (x : X509CertificateData)
    (xs : List X509CertificateData) :
    DecodeX509CertificateChainBytes (encodeCertificatesASN1PEM (x :: xs)) =
      Except.ok (x :: xs) := by
  unfold DecodeX509CertificateChainBytes
  rw [if_neg (by simp [encodeCertificatesASN1PEM])]
  exact decode_encode_chain (x :: xs)

/-- C3: encoding a bundle of an RSA private key, a certificate chain and a
CA chain with the PKCS1 codec and decoding the result yields back the
original private-key material and the same ordered certificate chain (and
CA chain); and decoding any input whose private-key PEM block carries a
marker other than "RSA PRIVATE KEY" fails with an invalid-data error. -/
theorem pkcs1_roundtrip_and_marker_check :
    (∀ (k : RSAPrivateKeyData) (certs ca : List X509CertificateData),
       ∃ raw : RawData,
         PKCS1.Encode ⟨some (CodecPrivateKey.rsa k), certs, ca⟩ =
           Except.ok raw ∧
         PKCS1.Decode raw =
           Except.ok ⟨some (CodecPrivateKey.rsa k), certs, ca⟩) ∧
    (∀ (e : RawData) (block : PEMBlock) (rest : PEMBytes),
       e.tlsKey = block :: rest → block.type ≠ "RSA PRIVATE KEY" →
       ∃ msg : String,
         PKCS1.Decode e = Except.error (CodecError.invalidData msg)) := by
  constructor
  · intro k certs ca
    refine ⟨_, rfl, ?_⟩
    cases certs with
    | nil =>
      cases ca with
      | nil => rfl
      | cons c cs =>
        simp [PKCS1.Decode, PKCS1.Encode, pemDecode, Bind.bind, Except.bind,
          length_encodeCertificatesASN1PEM, DecodeX509_encode_cons]
    | cons c cs =>
      cases ca with
      | nil =>
        simp [PKCS1.Decode, PKCS1.Encode, pemDecode, Bind.bind, Except.bind,
          length_encodeCertificatesASN1PEM, DecodeX509_encode_cons]
      | cons c2 cs2 =>
        simp [PKCS1.Decode, PKCS1.Encode, pemDecode, Bind.bind, Except.bind,
          length_encodeCertificatesASN1PEM, DecodeX509_encode_cons]
  · intro e block rest hkey htype
    refine ⟨"unexpected PEM block type - PKCS1 data should specify the type as RSA PRIVATE KEY", ?_⟩
    simp [PKCS1.Decode, hkey, pemDecode, htype, Bind.bind, Except.bind]

/-- Witness for C3: a concrete round trip through the PKCS1 codec, and a
concrete rejection of a "PRIVATE KEY" marker. -/
theorem pkcs1_roundtrip_witness :
    (∃ raw : RawData,
       PKCS1.Encode
           ⟨some (CodecPrivateKey.rsa ⟨[1, 2, 3]⟩), [⟨[4, 5]⟩], [⟨[6]⟩]⟩ =
         Except.ok raw ∧
       PKCS1.Decode raw =
         Except.ok ⟨some (CodecPrivateKey.rsa ⟨[1, 2, 3]⟩), [⟨[4, 5]⟩], [⟨[6]⟩]⟩) ∧
    (∃ msg : String,
       PKCS1.Decode
           ⟨[⟨"PRIVATE KEY", DERContent.unparsedBytes [9]⟩], [], []⟩ =
         Except.error (CodecError.invalidData msg)) := by
  constructor
  · exact pkcs1_roundtrip_and_marker_check.1 ⟨[1, 2, 3]⟩ [⟨[4, 5]⟩] [⟨[6]⟩]
  · exact pkcs1_roundtrip_and_marker_check.2
      ⟨[⟨"PRIVATE KEY", DERContent.unparsedBytes [9]⟩], [], []⟩
      ⟨"PRIVATE KEY", DERContent.unparsedBytes [9]⟩ [] rfl (by decide)

/-! ## Vault issuer backend Setup (pkg/controller/issuers/vault/vault.go) -/

/-- Vault token auth (`cmmeta.SecretKeySelector` reference; Setup reads
only the name). -/
structure VaultTokenAuth where
  name : String
deriving DecidableEq, Repr

/-- Vault appRole auth: role id and the secret reference name. -/
structure VaultAppRoleAuth where
  roleId : String
  secretRefName : String
deriving DecidableEq, Repr

/-- Vault Kubernetes auth: the secret reference name and the role. -/
structure VaultKubernetesAuth where
  secretRefName : String
  role : String
deriving DecidableEq, Repr

/-- Model of `cmapi.VaultAuth`: the three nilable auth method pointers. -/
structure VaultAuth where
  tokenSecretRef : Option VaultTokenAuth
  appRole : Option VaultAppRoleAuth
  kubernetes : Option VaultKubernetesAuth
deriving DecidableEq, Repr

/-- The Vault issuer configuration fields `Vault.Setup` reads. -/
structure VaultIssuerSpec where
  server : String
  path : String
  auth : VaultAuth
deriving DecidableEq, Repr

/-- A Vault health response (`client.Sys().Health()`). -/
structure VaultHealth where
  initialized : Bool
  sealedStatus : Bool
deriving DecidableEq, Repr

/-- The environment `Vault.Setup` interacts with: the result of building
the Vault client and, when that succeeds, the result of the health call. -/
structure VaultEnv where
  clientInit : Except String Unit
  health : Except String VaultHealth
deriving Repr

/-- What one call of `Vault.Setup` did: the Ready condition it set (status
and message) and the error it returned to the controller (`none` = nil,
no retry). -/
structure VaultSetupResult where
  readyCondition : Option (ConditionStatus × String)
  returnedError : Option String
deriving DecidableEq, Repr

/-- The Go message constants of vault.go. -/
def messageServerAndPathRequired : String :=
  "Vault server and path are required fields"

/-- Model of `messageAuthFieldsRequired` from vault.go. -/
def messageAuthFieldsRequired : String :=
  "Vault tokenSecretRef, appRole, or kubernetes is required"

/-- Model of `messageAuthOneFieldRequired` from vault.go. -/
def messageAuthOneFieldRequired : String :=
  "Multiple auth methods cannot be set on the same Vault issuer"

/-- Model of `messageVaultClientInitFailed` from vault.go. -/
def messageVaultClientInitFailed : String :=
  "Failed to initialize Vault client: "

/-- Model of `messageVaultHealthCheckFailed` from vault.go. -/
def messageVaultHealthCheckFailed : String :=
  "Failed to call Vault health check: "

/-- Model of `messageVaultStatusVerificationFailed` from vault.go. -/
def messageVaultStatusVerificationFailed : String :=
  "Vault is not initialized or is sealed"

/-- Model of `messageVaultVerified` from vault.go. -/
def messageVaultVerified : String := "Vault verified"

/-- Model of `tokenAuth != nil && len(tokenAuth.Name) == 0`. -/
def tokenAuthMissingFields : Option VaultTokenAuth → Bool
  | none => false
  | some t => t.name == ""

/-- Model of `appRoleAuth != nil && (len(RoleId) == 0 || len(SecretRef.Name) == 0)`. -/
def appRoleAuthMissingFields : Option VaultAppRoleAuth → Bool
  | none => false
  | some a => a.roleId == "" || a.secretRefName == ""

/-- Model of `kubeAuth != nil && (len(SecretRef.Name) == 0 || len(Role) == 0)`. -/
def kubeAuthMissingFields : Option VaultKubernetesAuth → Bool
  | none => false
  | some k => k.secretRefName == "" || k.role == ""

/-- Model of `Vault.Setup` from vault.go: the configuration checks in source order
(server/path, at least one auth method, exactly one auth method, required
sub-fields of the chosen method), each setting Ready=False and returning
nil; then client construction, the health call, and the health status
check, each setting Ready=False and returning the error; finally
Ready=True with nil. -/
def Vault.Setup (spec : VaultIssuerSpec) (env : VaultEnv) : VaultSetupResult :=
  if spec.server = "" ∨ spec.path = "" then
    ⟨some (ConditionStatus.CFalse, messageServerAndPathRequired), none⟩
  else if spec.auth.tokenSecretRef = none ∧ spec.auth.appRole = none ∧
      spec.auth.kubernetes = none then
    ⟨some (ConditionStatus.CFalse, messageAuthFieldsRequired), none⟩
  else if (spec.auth.tokenSecretRef ≠ none ∧ spec.auth.appRole ≠ none) ∨
      (spec.auth.tokenSecretRef ≠ none ∧ spec.auth.kubernetes ≠ none) ∨
      (spec.auth.appRole ≠ none ∧ spec.auth.kubernetes ≠ none) then
    ⟨some (ConditionStatus.CFalse, messageAuthOneFieldRequired), none⟩
  else if tokenAuthMissingFields spec.auth.tokenSecretRef then
    ⟨some (ConditionStatus.CFalse, messageAuthFieldsRequired), none⟩
  else if appRoleAuthMissingFields spec.auth.appRole then
    ⟨some (ConditionStatus.CFalse, messageAuthFieldsRequired), none⟩
  else if kubeAuthMissingFields spec.auth.kubernetes then
    ⟨some (ConditionStatus.CFalse, messageAuthFieldsRequired), none⟩
  else
    match env.clientInit with
    | Except.error e =>
        ⟨some (ConditionStatus.CFalse, messageVaultClientInitFailed ++ ": " ++ e),
         some e⟩
    | Except.ok _ =>
        match env.health with
        | Except.error e =>
            ⟨some (ConditionStatus.CFalse,
               messageVaultHealthCheckFailed ++ ": " ++ e), some e⟩
        | Except.ok h =>
            if h.initialized = false ∨ h.sealedStatus = true then
              ⟨some (ConditionStatus.CFalse, messageVaultStatusVerificationFailed),
               some messageVaultStatusVerificationFailed⟩
            else ⟨some (ConditionStatus.CTrue, messageVaultVerified), none⟩

/-- The configuration-error classification of a Vault issuer spec, as an
independent predicate following the same checks as `Vault.Setup`: the
first configuration-error message, or `none` for a well-formed
configuration. -/
def vaultConfigError (spec : VaultIssuerSpec) : Option String :=
  if spec.server = "" ∨ spec.path = "" then some messageServerAndPathRequired
  else if spec.auth.tokenSecretRef = none ∧ spec.auth.appRole = none ∧
      spec.auth.kubernetes = none then some messageAuthFieldsRequired
  else if (spec.auth.tokenSecretRef ≠ none ∧ spec.auth.appRole ≠ none) ∨
      (spec.auth.tokenSecretRef ≠ none ∧ spec.auth.kubernetes ≠ none) ∨
      (spec.auth.appRole ≠ none ∧ spec.auth.kubernetes ≠ none) then
    some messageAuthOneFieldRequired
  else if tokenAuthMissingFields spec.auth.tokenSecretRef then
    some messageAuthFieldsRequired
  else if appRoleAuthMissingFields spec.auth.appRole then
    some messageAuthFieldsRequired
  else if kubeAuthMissingFields spec.auth.kubernetes then
    some messageAuthFieldsRequired
  else none

/-- Whether the environment produces a transient failure: client
initialization failure, health-call failure, or a health response that is
uninitialized or sealed. -/
def vaultTransientFailure (env : VaultEnv) : Bool :=
  match env.clientInit with
  | Except.error _ => true
  | Except.ok _ =>
      match env.health with
      | Except.error _ => true
      | Except.ok h => !h.initialized || h.sealedStatus

/-- C6: `Vault.Setup` returns nil after setting Ready=False exactly for
the configuration errors (empty server or path, zero auth methods, more
than one auth method, or missing required sub-fields of the chosen auth
method), and returns a non-nil error — so the controller retries — exactly
for the transient failures (client initialization failure, health-call
failure, or an uninitialized or sealed health response). -/
theorem vault_setup_error_classification (spec : VaultIssuerSpec) (env : VaultEnv) :
    (((Vault.Setup spec env).returnedError = none ∧
      (∃ msg : String,
        (Vault.Setup spec env).readyCondition =
          some (ConditionStatus.CFalse, msg))) ↔
      (vaultConfigError spec).isSome) ∧
    ((Vault.Setup spec env).returnedError.isSome ↔
      (vaultConfigError spec = none ∧ vaultTransientFailure env = true)) := by
  unfold Vault.Setup vaultConfigError vaultTransientFailure
  split_ifs with h1 h2 h3 h4 h5 h6
  · simp
  · simp
  · simp
  · simp
  · simp
  · simp
  · cases env.clientInit with
    | error e => simp
    | ok u =>
      cases env.health with
      | error e => simp
      | ok h =>
        cases h with
        | mk hi hs => cases hi <;> cases hs <;> simp

/-! ## Certificate metrics (pkg/metrics)

The metrics implementation is not among the provided sources — only its
unit test (TestCertificateMetrics) is — so `Metrics.UpdateCertificate` is
modelled from the spec below. -/

/-- A Certificate as the metrics subsystem reads it: name, namespace, the
optional status NotAfter timestamp (Unix seconds) and the optional Ready
condition status. -/
structure MetricCertificate where
  name : String
  nspace : String
  notAfter : Option Int
  readyCondition : Option ConditionStatus
deriving DecidableEq, Repr

/-- The gauge values for one name/namespace pair after an
`UpdateCertificate` call: the two expiry gauges and the three ready-status
series. -/
structure CertificateGauges where
  expirySeconds : Int
  expiryRelativeSeconds : Int
  readyTrue : Nat
  readyFalse : Nat
  readyUnknown : Nat
deriving DecidableEq, Repr

/-- Modelled from the spec: `Metrics.UpdateCertificate(ctx, crt, now)` of
the metrics subsystem (implementation absent from the provided sources;
behaviour fixed by spec §4.4 and TestCertificateMetrics).  The absolute
expiry gauge reads NotAfter in Unix seconds, or 0 if unknown; the relative
expiry gauge reads NotAfter minus "now" in seconds (negative if already
expired), or 0 if unknown; the ready-status series set exactly one of the
condition labels True/False/Unknown to 1 according to the certificate's
Ready condition, with a missing condition reported as Unknown. -/
def Metrics.UpdateCertificate (crt : MetricCertificate) (now : Int) :
    CertificateGauges :=
  let status :=
    match crt.readyCondition with
    | some st => st
    | none => ConditionStatus.CUnknown
  { expirySeconds :=
      match crt.notAfter with
      | some t => t
      | none => 0
    expiryRelativeSeconds :=
      match crt.notAfter with
      | some t => t - now
      | none => 0
    readyTrue := if status = ConditionStatus.CTrue then 1 else 0
    readyFalse := if status = ConditionStatus.CFalse then 1 else 0
    readyUnknown := if status = ConditionStatus.CUnknown then 1 else 0 }

/-- C7 counterexample: the claim asserts that *every* certificate with no
NotAfter has its Unknown ready-status series at 1 and True at 0, but a
certificate with no NotAfter and a Ready=True condition reports True=1 and
Unknown=0 (the ready-status series follow the Ready condition, not the
expiry field, as the "certificate with expiry and status Unknown" case of
TestCertificateMetrics also shows). -/
theorem updateCertificate_no_notAfter_ready_true :
    (Metrics.UpdateCertificate
        ⟨"test-certificate", "test-ns", none, some ConditionStatus.CTrue⟩
        0).readyUnknown = 0 ∧
    (Metrics.UpdateCertificate
        ⟨"test-certificate", "test-ns", none, some ConditionStatus.CTrue⟩
        0).readyTrue = 1 ∧
    (Metrics.UpdateCertificate
        ⟨"test-certificate", "test-ns", none, some ConditionStatus.CTrue⟩
        0).expirySeconds = 0 ∧
    (Metrics.UpdateCertificate
        ⟨"test-certificate", "test-ns", none, some ConditionStatus.CTrue⟩
        0).expiryRelativeSeconds = 0 := by
  refine ⟨?_, ?_, ?_, ?_⟩ <;> rfl

/-- C7 (amended): after `UpdateCertificate(crt, now)`, a certificate with
NotAfter = t read at now = t−100 has a relative-expiry gauge of exactly
100; when now is after NotAfter the relative gauge is the (negative)
signed difference t − now; and a certificate with no NotAfter *and no
Ready condition* has both expiry gauges at 0 and the ready-status series
Unknown at 1 with True and False at 0. -/
theorem updateCertificate_gauges (crt : MetricCertificate) (now t : Int) :
    (crt.notAfter = some t →
      (Metrics.UpdateCertificate crt (t - 100)).expiryRelativeSeconds = 100) ∧
    (crt.notAfter = some t →
      (Metrics.UpdateCertificate crt now).expiryRelativeSeconds = t - now) ∧
    (crt.notAfter = some t → t < now →
      (Metrics.UpdateCertificate crt now).expiryRelativeSeconds < 0) ∧
    (crt.notAfter = none → crt.readyCondition = none →
      (Metrics.UpdateCertificate crt now).expirySeconds = 0 ∧
      (Metrics.UpdateCertificate crt now).expiryRelativeSeconds = 0 ∧
      (Metrics.UpdateCertificate crt now).readyUnknown = 1 ∧
      (Metrics.UpdateCertificate crt now).readyTrue = 0 ∧
      (Metrics.UpdateCertificate crt now).readyFalse = 0) := by
  refine ⟨?_, ?_, ?_, ?_⟩
  · intro h
    simp [Metrics.UpdateCertificate, h]
  · intro h
    simp [Metrics.UpdateCertificate, h]
  · intro h hlt
    simp [Metrics.UpdateCertificate, h]
    omega
  · intro hna hrc
    simp [Metrics.UpdateCertificate, hna, hrc]

/-- Witness for the amended C7 at the concrete test values: NotAfter =
2208988804 read 100 seconds earlier gives a relative gauge of 100; a
certificate with NotAfter = 99999 read at 100000 gives −1; a certificate
with neither NotAfter nor a Ready condition reads 0/0 and Unknown=1. -/
theorem updateCertificate_gauges_witness :
    (Metrics.UpdateCertificate
        ⟨"test-certificate", "test-ns", some 2208988804,
         some ConditionStatus.CTrue⟩
        (2208988804 - 100)).expiryRelativeSeconds = 100 ∧
    (Metrics.UpdateCertificate
        ⟨"test-certificate", "test-ns", some 99999,
         some ConditionStatus.CUnknown⟩
        100000).expiryRelativeSeconds < 0 ∧
    (Metrics.UpdateCertificate
        ⟨"test-certificate", "test-ns", none, none⟩ 0).readyUnknown = 1 := by
  refine ⟨?_, ?_, ?_⟩
  · exact (updateCertificate_gauges
      ⟨"test-certificate", "test-ns", some 2208988804,
       some ConditionStatus.CTrue⟩ 0 2208988804).1 rfl
  · exact (updateCertificate_gauges
      ⟨"test-certificate", "test-ns", some 99999,
       some ConditionStatus.CUnknown⟩ 100000 99999).2.2.1 rfl (by norm_num)
  · exact ((updateCertificate_gauges
      ⟨"test-certificate", "test-ns", none, none⟩ 0 0).2.2.2 rfl rfl).2.2.1

/-! ## Gateway listeners and buildCertificates
(pkg/controller/certificate-shim/sync.go, primary version) -/

/-- Model of `gwapi.Listener.TLS.CertificateRef` (a `LocalObjectReference`). -/
structure GatewayCertificateRef where
  group : String
  kind : String
  name : String
deriving DecidableEq, Repr

/-- Model of `gwapi.TLSModeType`. -/
inductive GatewayTLSMode where
  | Terminate
  | Passthrough
deriving DecidableEq, Repr

/-- Model of `gwapi.GatewayTLSConfig`: the TLS block of a listener, with nilable
mode and certificateRef pointers. -/
structure GatewayTLSConfig where
  mode : Option GatewayTLSMode
  certificateRef : Option GatewayCertificateRef
deriving DecidableEq, Repr

/-- A `gwapi.Listener`: nilable hostname pointer and nilable TLS block. -/
structure GatewayListener where
  hostname : Option String
  tls : Option GatewayTLSConfig
deriving DecidableEq, Repr

/-- Model of `validateGatewayListenerBlock` from sync.go: per-listener validation.
Hostname must be present and non-empty; the TLS block must be present
(when absent the function returns at once); with a TLS block, the
certificateRef must be present with group "core", kind "Secret" and a
non-empty name, and the mode must be present and `Terminate`. -/
def validateGatewayListenerBlock (l : GatewayListener) : List String :=
  let hostnameErrs :=
    if l.hostname = none ∨ l.hostname = some "" then
      ["spec.listeners[i].hostname: Required value: the hostname cannot be empty"]
    else []
  match l.tls with
  | none =>
      hostnameErrs ++
        ["spec.listeners[i].tls: Required value: the TLS block cannot be empty"]
  | some tls =>
      let certRefErrs :=
        match tls.certificateRef with
        | none =>
            ["spec.listeners[i].tls.certificateRef: Required value: listener is missing a certificateRef"]
        | some ref =>
            (if ref.group ≠ "core" then
              ["spec.listeners[i].tls.certificateRef.group: Unsupported value: supported values: core"]
            else []) ++
            (if ref.kind ≠ "Secret" then
              ["spec.listeners[i].tls.certificateRef.kind: Unsupported value: supported values: Secret"]
            else []) ++
            (if ref.name = "" then
              ["spec.listeners[i].tls.certificateRef.name: Required value: the Secret name cannot be empty"]
            else [])
      let modeErrs :=
        match tls.mode with
        | none =>
            ["spec.listeners[i].tls.mode: Required value: the mode field is required"]
        | some m =>
            if m ≠ GatewayTLSMode.Terminate then
              ["spec.listeners[i].tls.mode: Unsupported value: supported values: Terminate"]
            else []
      hostnameErrs ++ certRefErrs ++ modeErrs

/-- The key of the `tlsHosts` map in `buildCertificates`: a
`corev1.ObjectReference` with namespace and name. -/
structure SecretObjectReference where
  nspace : String
  name : String
deriving DecidableEq, Repr

/-- Model of `tlsHosts[secretRef] = append(tlsHosts[secretRef], host)`: append the
host to the entry for the reference, creating the entry if absent (Go
`append` on a nil slice). -/
def appendHost (acc : List (SecretObjectReference × List String))
    (ref : SecretObjectReference) (host : String) :
    List (SecretObjectReference × List String) :=
  match acc with
  | [] => [(ref, [host])]
  | (r, hs) :: rest =>
      if r = ref then (r, hs ++ [host]) :: rest
      else (r, hs) :: appendHost rest ref host

/-- One iteration of the listener loop of `buildCertificates` (Gateway
case): skip the listener when `validateGatewayListenerBlock` fails
(emitting a warning event), otherwise add its hostname under its
certificateRef name. -/
def processListener (ns : String)
    (acc : List (SecretObjectReference × List String)) (l : GatewayListener) :
    List (SecretObjectReference × List String) :=
  if (validateGatewayListenerBlock l).isEmpty then
    match l.tls with
    | some tls =>
        match tls.certificateRef, l.hostname with
        | some ref, some host => appendHost acc ⟨ns, ref.name⟩ host
        | _, _ => acc
    | none => acc
  else acc

/-- The `tlsHosts` map built by `buildCertificates` for a Gateway in
namespace `ns` (content of the Go map as an insertion-ordered association
list). -/
def gatewayTlsHosts (ns : String) (listeners : List GatewayListener) :
    List (SecretObjectReference × List String) :=
  listeners.foldl (processListener ns) []

/-- The Certificates `buildCertificates` creates from the `tlsHosts`
entries: one per entry, named after the secret, with the collected
hostnames as DNS names, the Gateway labels and the resolved issuer
reference. -/
def buildGatewayCertificates (ns : String)
    (labels : Option (List (String × String)))
    (issuerName issuerKind issuerGroup : String)
    (listeners : List GatewayListener) : List Certificate :=
  (gatewayTlsHosts ns listeners).map fun e =>
    { name := e.1.name
      nspace := e.1.nspace
      labels := labels
      spec :=
        { commonName := ""
          dnsNames := e.2
          secretName := e.1.name
          issuerRef := ⟨issuerName, issuerKind, issuerGroup⟩ } }

/-- The warning events emitted by the listener loop: one "Skipped a
listener block" event per listener failing validation. -/
def gatewaySkipWarnings (listeners : List GatewayListener) : List String :=
  listeners.filterMap fun l =>
    if (validateGatewayListenerBlock l).isEmpty then none
    else
      some ("Skipped a listener block: " ++
        String.intercalate ", " (validateGatewayListenerBlock l))

/-- The certificateRef names of the listeners that have a TLS block with a
certificateRef (the listeners `validateGatewayListeners` does not skip). -/
def gatewayListenerRefNames (listeners : List GatewayListener) : List String :=
  listeners.filterMap fun l =>
    match l.tls with
    | none => none
    | some tls => tls.certificateRef.map (fun r => r.name)

/-- Model of `validateGatewayListeners` from sync.go: the blocking Gateway-level
validation, which only rejects certificateRef names shared by more than
one listener (listeners without a TLS block or certificateRef are
skipped). -/
def validateGatewayListeners (listeners : List GatewayListener) : List String :=
  (gatewayListenerRefNames listeners).dedup.filterMap fun n =>
    if 1 < (gatewayListenerRefNames listeners).count n then
      some ("this secret name must only appear in a single listener entry: " ++ n)
    else none

theorem appendHost_mem (acc : List (SecretObjectReference × List String))
    (ref : SecretObjectReference) (host : String) :
    ∃ hs, (ref, hs) ∈ appendHost acc ref host ∧ host ∈ hs := by
  induction acc with
  | nil => exact ⟨[host], List.mem_singleton.mpr rfl, List.mem_singleton.mpr rfl⟩
  | cons p rest ih =>
    obtain ⟨r, hs⟩ := p
    by_cases hr : r = ref
    · subst hr
      refine ⟨hs ++ [host], ?_, List.mem_append_right _ (List.mem_singleton.mpr rfl)⟩
      simp [appendHost]
    · obtain ⟨hs2, hmem, hhost⟩ := ih
      refine ⟨hs2, ?_, hhost⟩
      simp only [appendHost, if_neg hr]
      exact List.mem_cons_of_mem _ hmem

theorem appendHost_preserves (acc : List (SecretObjectReference × List String))
    (ref r2 : SecretObjectReference) (x h2 : String)
    (hp : ∃ hs, (ref, hs) ∈ acc ∧ x ∈ hs) :
    ∃ hs, (ref, hs) ∈ appendHost acc r2 h2 ∧ x ∈ hs := by
  induction acc with
  | nil => simp at hp
  | cons p rest ih =>
    obtain ⟨r, hs⟩ := p
    obtain ⟨hs0, hmem, hx⟩ := hp
    rcases List.mem_cons.mp hmem with hhead | htail
    · obtain ⟨hr, hhs⟩ := Prod.mk.injEq .. ▸ hhead
      subst hr
      subst hhs
      by_cases hr2 : ref = r2
      · refine ⟨hs0 ++ [h2], ?_, List.mem_append_left _ hx⟩
        simp [appendHost, hr2]
      · refine ⟨hs0, ?_, hx⟩
        simp only [appendHost, if_neg hr2]
        exact List.mem_cons_self _ _
    · by_cases hr2 : r = r2
      · refine ⟨hs0, ?_, hx⟩
        simp only [appendHost, if_pos hr2]
        exact List.mem_cons_of_mem _ htail
      · obtain ⟨hs2, hmem2, hx2⟩ := ih ⟨hs0, htail, hx⟩
        refine ⟨hs2, ?_, hx2⟩
        simp only [appendHost, if_neg hr2]
        exact List.mem_cons_of_mem _ hmem2

theorem processListener_preserves (ns : String)
    (acc : List (SecretObjectReference × List String)) (l : GatewayListener)
    (ref : SecretObjectReference) (x : String)
    (hp : ∃ hs, (ref, hs) ∈ acc ∧ x ∈ hs) :
    ∃ hs, (ref, hs) ∈ processListener ns acc l ∧ x ∈ hs := by
  unfold processListener
  split_ifs with hv
  · cases htls : l.tls with
    | none => exact hp
    | some tls =>
      cases href : tls.certificateRef with
      | none => simp [htls, href, hp]
      | some r =>
        cases hhost : l.hostname with
        | none => simp [htls, href, hhost, hp]
        | some host =>
          simp only [htls, href, hhost]
          exact appendHost_preserves acc ref ⟨ns, r.name⟩ x host hp
  · exact hp

theorem foldl_processListener_preserves (ns : String)
    (listeners : List GatewayListener)
    (ref : SecretObjectReference) (x : String) :
    ∀ acc, (∃ hs, (ref, hs) ∈ acc ∧ x ∈ hs) →
      ∃ hs, (ref, hs) ∈ listeners.foldl (processListener ns) acc ∧ x ∈ hs := by
  induction listeners with
  | nil => intro acc hp; simpa using hp
  | cons l rest ih =>
    intro acc hp
    simpa [List.foldl_cons] using
      ih (processListener ns acc l)
        (processListener_preserves ns acc l ref x hp)

theorem mem_foldl_processListener (ns : String)
    (listeners : List GatewayListener) (l : GatewayListener)
    (tls : GatewayTLSConfig) (ref : GatewayCertificateRef) (host : String)
    (hl : l ∈ listeners) (htls : l.tls = some tls)
    (href : tls.certificateRef = some ref) (hhost : l.hostname = some host)
    (hv : validateGatewayListenerBlock l = []) :
    ∀ acc, ∃ hs,
      ((⟨ns, ref.name⟩ : SecretObjectReference), hs) ∈
        listeners.foldl (processListener ns) acc ∧ host ∈ hs := by
  induction listeners with
  | nil => simp at hl
  | cons a rest ih =>
    intro acc
    rcases List.mem_cons.mp hl with hhead | htail
    · subst hhead
      have hstep : processListener ns acc l = appendHost acc ⟨ns, ref.name⟩ host := by
        simp [processListener, hv, htls, href, hhost]
      rw [List.foldl_cons, hstep]
      exact foldl_processListener_preserves ns rest ⟨ns, ref.name⟩ host _
        (appendHost_mem acc ⟨ns, ref.name⟩ host)
    · rw [List.foldl_cons]
      exact ih htail (processListener ns acc a)

theorem foldl_processListener_filter (ns : String)
    (listeners : List GatewayListener) :
    ∀ acc, listeners.foldl (processListener ns) acc =
      (listeners.filter
        (fun l => (validateGatewayListenerBlock l).isEmpty)).foldl
        (processListener ns) acc := by
  induction listeners with
  | nil => intro acc; rfl
  | cons l rest ih =>
    intro acc
    by_cases hv : (validateGatewayListenerBlock l).isEmpty
    · simp only [List.filter_cons, hv, if_true, List.foldl_cons]
      exact ih _
    · have hv2 : (validateGatewayListenerBlock l).isEmpty = false := by
        simpa using hv
      simp only [List.filter_cons, hv2, Bool.false_eq_true, if_false,
        List.foldl_cons]
      rw [show processListener ns acc l = acc by simp [processListener, hv2]]
      exact ih _

theorem gatewaySkipWarnings_length (listeners : List GatewayListener) :
    (gatewaySkipWarnings listeners).length =
      (listeners.filter
        (fun l => !(validateGatewayListenerBlock l).isEmpty)).length := by
  induction listeners with
  | nil => rfl
  | cons l rest ih =>
    by_cases hv : (validateGatewayListenerBlock l).isEmpty
    · simp only [gatewaySkipWarnings, List.filterMap_cons, hv, if_true,
        List.filter_cons, Bool.not_true, if_false] at ih ⊢
      simpa using ih
    · simp only [gatewaySkipWarnings, List.filterMap_cons, hv, if_false,
        List.filter_cons, Bool.not_false] at ih ⊢
      simp only [eq_false_of_ne_true hv, Bool.not_false, if_true,
        List.length_cons]
      simpa using ih

/-- C1: for a Gateway, the per-listener validation rejects a listener that
is missing its TLS block or whose certificateRef has group other than
"core" or kind other than "Secret"; the listener loop of
`buildCertificates` skips exactly the listeners that fail validation, so
the `tlsHosts` map — and with it the created Certificates — is the one of
the valid listeners alone: a Certificate with the secret name of the listener
and hostname is created for every valid listener, one warning event is
emitted per skipped listener, and the Gateway-level blocking validation
never fires on listener invalidity (only on duplicate certificateRef
names), so no single invalid listener makes the reconcile create zero
Certificates. -/
theorem shim_gateway_per_listener_validation
    (ns : String) (listeners : List GatewayListener) :
    (∀ l : GatewayListener, l.tls = none →
      validateGatewayListenerBlock l ≠ []) ∧
    (∀ (l : GatewayListener) (tls : GatewayTLSConfig)
       (ref : GatewayCertificateRef),
      l.tls = some tls → tls.certificateRef = some ref →
      ref.group ≠ "core" → validateGatewayListenerBlock l ≠ []) ∧
    (∀ (l : GatewayListener) (tls : GatewayTLSConfig)
       (ref : GatewayCertificateRef),
      l.tls = some tls → tls.certificateRef = some ref →
      ref.kind ≠ "Secret" → validateGatewayListenerBlock l ≠ []) ∧
    (gatewayTlsHosts ns listeners =
      gatewayTlsHosts ns
        (listeners.filter (fun l => (validateGatewayListenerBlock l).isEmpty))) ∧
    (∀ l : GatewayListener, l ∈ listeners →
      ∀ (tls : GatewayTLSConfig) (ref : GatewayCertificateRef) (host : String),
      l.tls = some tls → tls.certificateRef = some ref →
      l.hostname = some host → validateGatewayListenerBlock l = [] →
      ∀ (labels : Option (List (String × String)))
        (issuerName issuerKind issuerGroup : String),
        ∃ crt, crt ∈ buildGatewayCertificates ns labels issuerName issuerKind
            issuerGroup listeners ∧
          crt.spec.secretName = ref.name ∧ host ∈ crt.spec.dnsNames) ∧
    ((gatewaySkipWarnings listeners).length =
      (listeners.filter
        (fun l => !(validateGatewayListenerBlock l).isEmpty)).length) ∧
    ((gatewayListenerRefNames listeners).Nodup →
      validateGatewayListeners listeners = []) := by
  refine ⟨?_, ?_, ?_, ?_, ?_, gatewaySkipWarnings_length listeners, ?_⟩
  · intro l htls
    simp [validateGatewayListenerBlock, htls]
  · intro l tls ref htls href hgroup
    simp [validateGatewayListenerBlock, htls, href, hgroup]
  · intro l tls ref htls href hkind
    simp [validateGatewayListenerBlock, htls, href, hkind]
  · exact foldl_processListener_filter ns listeners []
  · intro l hl tls ref host htls href hhost hv labels iname ikind igroup
    obtain ⟨hs, hmem, hhostmem⟩ :=
      mem_foldl_processListener ns listeners l tls ref host hl htls href
        hhost hv []
    refine ⟨_, List.mem_map_of_mem _ hmem, rfl, ?_⟩
    simpa using hhostmem
  · intro hnodup
    simp only [validateGatewayListeners, List.filterMap_eq_nil_iff]
    intro n hn
    have hle : (gatewayListenerRefNames listeners).count n ≤ 1 :=
      List.nodup_iff_count_le_one.mp hnodup n
    rw [if_neg (by omega)]

/-- A valid Gateway listener: non-empty hostname, TLS block with mode
Terminate and a core/Secret certificateRef with a non-empty name. -/
def exampleValidListener : GatewayListener :=
  ⟨some "example.com",
   some ⟨some GatewayTLSMode.Terminate, some ⟨"core", "Secret", "example-tls"⟩⟩⟩

/-- An invalid Gateway listener: its certificateRef group is not "core". -/
def exampleInvalidListener : GatewayListener :=
  ⟨some "bad.example.com",
   some ⟨some GatewayTLSMode.Terminate,
         some ⟨"cert-manager.io", "Secret", "other-tls"⟩⟩⟩

/-- Witness for C1 at a concrete Gateway: of two listeners, the one with a
non-core certificateRef group fails validation, while a Certificate
carrying the secret name of the valid listener and hostname is still built. -/
theorem shim_gateway_per_listener_validation_witness :
    validateGatewayListenerBlock exampleInvalidListener ≠ [] ∧
    (∃ crt, crt ∈ buildGatewayCertificates "ns-1" none "letsencrypt" "Issuer"
        "cert-manager.io" [exampleValidListener, exampleInvalidListener] ∧
      crt.spec.secretName = "example-tls" ∧
      "example.com" ∈ crt.spec.dnsNames) := by
  constructor
  · exact (shim_gateway_per_listener_validation "ns-1"
      [exampleValidListener, exampleInvalidListener]).2.1
      exampleInvalidListener
      ⟨some GatewayTLSMode.Terminate,
       some ⟨"cert-manager.io", "Secret", "other-tls"⟩⟩
      ⟨"cert-manager.io", "Secret", "other-tls"⟩ rfl rfl (by decide)
  · exact (shim_gateway_per_listener_validation "ns-1"
      [exampleValidListener, exampleInvalidListener]).2.2.2.2.1
      exampleValidListener (List.mem_cons_self _ _)
      ⟨some GatewayTLSMode.Terminate, some ⟨"core", "Secret", "example-tls"⟩⟩
      ⟨"core", "Secret", "example-tls"⟩ "example.com" rfl rfl rfl (by decide)
      none "letsencrypt" "Issuer" "cert-manager.io"

end CertManager
